import Mathlib

/-!
Verification of the AI generation pipeline of the Teacher-Ai repository
(src/app.py): the Ollama client result mapping, the chat context window,
the quiz generation / JSON extraction logic, and the PDF section builder.

The Python functions are shallowly embedded as Lean definitions.  Network
effects are represented by oracle arguments: a generation call is a function
from (prompt, system prompt) to the text the call yields (or, for the PDF
path, an `Except` value, since `generate_pdf_content` wraps its calls in a
try/except).  Each embedded orchestrator additionally returns the number of
generation calls it issues, so that short-circuit claims are statable.
-/

/-- JSON values, as produced by `json.loads` in src/app.py line 140.
Numbers keep their raw token text (the claims only involve strings,
arrays and objects). -/
inductive JVal where
  | null : JVal
  | bool (b : Bool) : JVal
  | num (raw : String) : JVal
  | str (s : String) : JVal
  | arr (xs : List JVal) : JVal
  | obj (fields : List (String × JVal)) : JVal

/-- Field lookup on a JSON object, as Python dict access / `.get`. -/
def JVal.getField (v : JVal) (k : String) : Option JVal :=
  match v with
  | JVal.obj fs => fs.lookup k
  | _ => none

/-- Skip JSON whitespace, as the tokenizer inside `json.loads` does. -/
def skipWs : List Char → List Char
  | [] => []
  | c :: cs =>
      if c = ' ' ∨ c = '\n' ∨ c = '\t' ∨ c = '\r' then skipWs cs else c :: cs

/-- Value of a hexadecimal digit, for \u escapes in JSON strings. -/
def hexVal (c : Char) : Option Nat :=
  if '0' ≤ c ∧ c ≤ '9' then some (c.toNat - '0'.toNat)
  else if 'a' ≤ c ∧ c ≤ 'f' then some (c.toNat - 'a'.toNat + 10)
  else if 'A' ≤ c ∧ c ≤ 'F' then some (c.toNat - 'A'.toNat + 10)
  else none

/-- Single-character JSON string escapes: n, t, r, b, f map to their
control characters, and a quote, backslash or slash maps to itself. -/
def escChar (e : Char) : Option Char :=
  if e = 'n' then some '\n'
  else if e = 't' then some '\t'
  else if e = 'r' then some '\r'
  else if e = 'b' then some (Char.ofNat 8)
  else if e = 'f' then some (Char.ofNat 12)
  else if e = '"' ∨ e = '\\' ∨ e = '/' then some e
  else none

/-- Parse the body of a JSON string after the opening quote; returns the
decoded content and the input remaining after the closing quote. -/
def parseStringChars : List Char → Option (String × List Char)
  | [] => none
  | '"' :: rest => some ("", rest)
  | '\\' :: 'u' :: a :: b :: c :: d :: rest =>
      match hexVal a, hexVal b, hexVal c, hexVal d with
      | some ha, some hb, some hc, some hd =>
          (parseStringChars rest).map
            (fun p =>
              (String.mk (Char.ofNat (((ha * 16 + hb) * 16 + hc) * 16 + hd) :: p.1.data), p.2))
      | _, _, _, _ => none
  | '\\' :: e :: rest =>
      match escChar e with
      | some ch => (parseStringChars rest).map (fun p => (String.mk (ch :: p.1.data), p.2))
      | none => none
  | c :: rest => (parseStringChars rest).map (fun p => (String.mk (c :: p.1.data), p.2))

/-- Longest digit prefix of the input, and the remaining input. -/
def spanDigits : List Char → List Char × List Char
  | [] => ([], [])
  | c :: cs =>
      if '0' ≤ c ∧ c ≤ '9' then
        let p := spanDigits cs
        (c :: p.1, p.2)
      else ([], c :: cs)

/-- Optional exponent part of a JSON number, given the marker already seen. -/
def parseExpTail (e : Char) (cs : List Char) : Option (List Char × List Char) :=
  let p := match cs with
    | '+' :: r => ([('+' : Char)], r)
    | '-' :: r => ([('-' : Char)], r)
    | _ => (([] : List Char), cs)
  let q := spanDigits p.2
  if q.1.isEmpty then none else some (e :: (p.1 ++ q.1), q.2)

/-- Optional exponent part of a JSON number. -/
def parseExpOpt (cs : List Char) : Option (List Char × List Char) :=
  match cs with
  | 'e' :: rest => parseExpTail 'e' rest
  | 'E' :: rest => parseExpTail 'E' rest
  | _ => some ([], cs)

/-- Unsigned JSON number token: digits, optional fraction, optional exponent. -/
def parseUnsignedNum (cs : List Char) : Option (List Char × List Char) :=
  let p := spanDigits cs
  if p.1.isEmpty then none
  else
    match p.2 with
    | '.' :: r2 =>
        let q := spanDigits r2
        if q.1.isEmpty then none
        else
          match parseExpOpt q.2 with
          | some (es, r4) => some (p.1 ++ '.' :: q.1 ++ es, r4)
          | none => none
    | _ =>
        match parseExpOpt p.2 with
        | some (es, r2) => some (p.1 ++ es, r2)
        | none => none

/-- JSON number token with optional leading minus sign. -/
def parseNumberTok (cs : List Char) : Option (JVal × List Char) :=
  match cs with
  | '-' :: rest =>
      (parseUnsignedNum rest).map (fun p => (JVal.num (String.mk ('-' :: p.1)), p.2))
  | _ => (parseUnsignedNum cs).map (fun p => (JVal.num (String.mk p.1), p.2))

mutual

/-- Recursive-descent JSON value parser (fuel-indexed), embedding the
grammar accepted by `json.loads`. -/
def parseValue : Nat → List Char → Option (JVal × List Char)
  | 0, _ => none
  | Nat.succ fuel, cs =>
      match skipWs cs with
      | 'n' :: 'u' :: 'l' :: 'l' :: rest => some (JVal.null, rest)
      | 't' :: 'r' :: 'u' :: 'e' :: rest => some (JVal.bool true, rest)
      | 'f' :: 'a' :: 'l' :: 's' :: 'e' :: rest => some (JVal.bool false, rest)
      | '"' :: rest =>
          match parseStringChars rest with
          | some (s, rest2) => some (JVal.str s, rest2)
          | none => none
      | '[' :: rest =>
          (match skipWs rest with
           | ']' :: rest2 => some (JVal.arr [], rest2)
           | other =>
               match parseArrayElems fuel other with
               | some (xs, rest2) => some (JVal.arr xs, rest2)
               | none => none)
      | '\x7b' :: rest =>
          (match skipWs rest with
           | '\x7d' :: rest2 => some (JVal.obj [], rest2)
           | other =>
               match parseObjFields fuel other with
               | some (fs, rest2) => some (JVal.obj fs, rest2)
               | none => none)
      | other => parseNumberTok other

/-- Comma-separated JSON array elements up to the closing bracket. -/
def parseArrayElems : Nat → List Char → Option (List JVal × List Char)
  | 0, _ => none
  | Nat.succ fuel, cs =>
      match parseValue fuel cs with
      | some (v, rest) =>
          (match skipWs rest with
           | ',' :: rest2 =>
               match parseArrayElems fuel rest2 with
               | some (xs, rest3) => some (v :: xs, rest3)
               | none => none
           | ']' :: rest2 => some ([v], rest2)
           | _ => none)
      | none => none

/-- Comma-separated JSON object fields up to the closing brace. -/
def parseObjFields : Nat → List Char → Option (List (String × JVal) × List Char)
  | 0, _ => none
  | Nat.succ fuel, cs =>
      match skipWs cs with
      | '"' :: rest =>
          match parseStringChars rest with
          | some (k, rest2) =>
              (match skipWs rest2 with
               | ':' :: rest3 =>
                   match parseValue fuel rest3 with
                   | some (v, rest4) =>
                       (match skipWs rest4 with
                        | ',' :: rest5 =>
                            match parseObjFields fuel rest5 with
                            | some (fs, rest6) => some ((k, v) :: fs, rest6)
                            | none => none
                        | '\x7d' :: rest5 => some ([(k, v)], rest5)
                        | _ => none)
                   | none => none
               | _ => none)
          | none => none
      | _ => none

end

/-- Embedding of `json.loads` on a character list: parse one JSON value and
require that only whitespace remains.  The fuel bound is generous: each
recursive step consumes at least one input character. -/
def loadsVal (cs : List Char) : Option JVal :=
  match parseValue (2 * cs.length + 8) cs with
  | some (v, rest) => if (skipWs rest).isEmpty then some v else none
  | none => none

/-- Embedding of `json.loads` restricted to a top-level array, which is the
only successful case reachable from the bracket-extraction step (the
extracted substring always begins with an opening bracket). -/
def loadsArr (cs : List Char) : Option (List JVal) :=
  match loadsVal cs with
  | some (JVal.arr xs) => some xs
  | _ => none

/-- Index of the first occurrence of a character in a list, if any. -/
def firstIdxFrom (c : Char) : List Char → Option Nat
  | [] => none
  | a :: as => if a = c then some 0 else (firstIdxFrom c as).map (· + 1)

/-- Embedding of the extraction step of src/app.py line 138,
re.search of a bracketed substring with DOTALL: the leftmost opening
bracket, greedily matched to the last closing bracket of the whole text.
A match exists exactly when the last closing bracket lies strictly after
the first opening bracket. -/
def bracketSlice (l : List Char) : Option (List Char) :=
  match firstIdxFrom '[' l, firstIdxFrom ']' l.reverse with
  | some i, some k =>
      let j := l.length - 1 - k
      if i < j then some ((l.drop i).take (j - i + 1)) else none
  | _, _ => none

/-- Outcome of the HTTP POST issued by `OllamaClient.generate_response`
(src/app.py lines 62-66): a response with a status code, a parsed JSON
object body and a raw text body; a timeout; or any other transport
failure with its message.  A JSON body is modelled as a string-valued
association list, which covers the shapes the claims are about. -/
inductive HttpResult where
  | resp (status : Nat) (jsonBody : List (String × String)) (text : String) : HttpResult
  | timeout : HttpResult
  | connError (msg : String) : HttpResult

/-- Embedding of `OllamaClient.generate_response` (src/app.py lines 50-76)
as a total map from the outcome of the POST to the returned string: a 200
response yields the body under the key response (with the fixed apology as
default), a non-200 response yields an error string carrying status and
body text, a timeout and any other failure yield their fixed texts. -/
def generate_response : HttpResult → String
  | HttpResult.resp status jsonBody text =>
      if status = 200 then
        (jsonBody.lookup "response").getD "Sorry, I could not generate a response."
      else "Error: " ++ toString status ++ " - " ++ text
  | HttpResult.timeout => "Request timed out. The model might be processing a complex query."
  | HttpResult.connError msg => "Error connecting to Ollama: " ++ msg

/-- The system prompt of `generate_quiz_questions` (src/app.py lines 113-130). -/
def quiz_system_prompt (topic difficulty : String) (num_questions : Nat) : String :=
  "You are an expert quiz generator. Create " ++ toString num_questions ++
  " multiple choice questions about " ++ topic ++ " at " ++ difficulty ++ " level. \n\n" ++
  "Format your response as a JSON array with this exact structure:\n[\n  \x7b\n" ++
  "    \"question\": \"Question text here?\",\n" ++
  "    \"options\": [\"Option A\", \"Option B\", \"Option C\", \"Option D\"],\n" ++
  "    \"correct\": \"A\",\n" ++
  "    \"explanation\": \"Brief explanation of why this is correct\"\n  \x7d\n]\n\n" ++
  "Make sure:\n- Questions are clear and educational\n" ++
  "- Options are plausible but only one is correct\n" ++
  "- Difficulty matches the requested level\n" ++
  "- Include brief explanations\n- Return valid JSON only"

/-- The user prompt of `generate_quiz_questions` (src/app.py line 132). -/
def quiz_prompt (topic difficulty : String) (num_questions : Nat) : String :=
  "Generate " ++ toString num_questions ++ " " ++ difficulty ++
  " level multiple choice questions about: " ++ topic

/-- The single quiz item returned by `generate_quiz_questions` when Ollama
is unavailable (src/app.py lines 105-111).  Note it has no explanation
field. -/
def unavailQuizItem (topic : String) : JVal :=
  JVal.obj
    [("question", JVal.str ("Sample question about " ++ topic ++ "?")),
     ("options",
      JVal.arr [JVal.str "Option A", JVal.str "Option B", JVal.str "Option C",
                JVal.str "Option D"]),
     ("correct", JVal.str "A")]

/-- The single quiz item returned by `generate_quiz_questions` when JSON
extraction or parsing fails (src/app.py lines 146-158). -/
def parseFallbackItem (topic : String) : JVal :=
  JVal.obj
    [("question",
      JVal.str ("What is an important concept to understand about " ++ topic ++ "?")),
     ("options",
      JVal.arr [JVal.str "It requires foundational knowledge",
                JVal.str "It can be learned quickly",
                JVal.str "It has no practical applications",
                JVal.str "It is only theoretical"]),
     ("correct", JVal.str "A"),
     ("explanation",
      JVal.str "Understanding foundational concepts is crucial for mastering any topic.")]

/-- The extraction-and-parse step of `generate_quiz_questions` (src/app.py
lines 136-143): take the bracketed substring of the model text and run it
through `json.loads`; any failure yields none. -/
def extracted_questions (response : String) : Option (List JVal) :=
  match bracketSlice response.data with
  | some sub => loadsArr sub
  | none => none

/-- The parsing tail of `generate_quiz_questions` (src/app.py lines
136-158): the parsed array is returned as-is when extraction succeeds,
otherwise the one-item fallback is returned. -/
def quiz_from_response (topic : String) (response : String) : List JVal :=
  match extracted_questions response with
  | some arr => arr
  | none => [parseFallbackItem topic]

/-- Embedding of `generate_quiz_questions` (src/app.py lines 102-158).
The availability probe result and the generation call are oracle
arguments; the second component of the result counts how many generation
calls were issued. -/
def generate_quiz_questions (avail : Bool) (gen : String → String → String)
    (topic difficulty : String) (num_questions : Nat) : List JVal × Nat :=
  if avail then
    (quiz_from_response topic
      (gen (quiz_prompt topic difficulty num_questions)
           (quiz_system_prompt topic difficulty num_questions)), 1)
  else ([unavailQuizItem topic], 0)

/-- Modelled from the spec: the per-object validation described in §4.4
step 3 (non-empty question, exactly 4 options, correct label among
A, B, C, D referencing one of the options).  With exactly 4 options every
label among A-D references an option, so the reference condition reduces
to membership.  This predicate appears nowhere in src/app.py; it is stated
only to compare the spec with the code. -/
def specValidQuizObj (v : JVal) : Bool :=
  match v.getField "question", v.getField "options", v.getField "correct" with
  | some (JVal.str q), some (JVal.arr opts), some (JVal.str c) =>
      (q.length != 0) && (opts.length == 4) &&
      (c == "A" || c == "B" || c == "C" || c == "D")
  | _, _, _ => false

/-- Rendering of one prior conversation turn inside
`generate_chat_response` (src/app.py line 91). -/
def renderTurn (t : String × String) : String :=
  "User: " ++ t.1 ++ "\nAssistant: " ++ t.2

/-- The context block of `generate_chat_response` (src/app.py lines
88-94): the last five supplied turns, in the order supplied, rendered and
joined with newlines, followed by a blank line; empty when no context is
supplied. -/
def context_prompt (context : List (String × String)) : String :=
  if context.isEmpty then ""
  else
    String.intercalate "\n" ((context.drop (context.length - 5)).map renderTurn) ++ "\n\n"

/-- The full prompt of `generate_chat_response` (src/app.py line 98). -/
def full_prompt (message : String) (context : List (String × String)) : String :=
  context_prompt context ++ "User: " ++ message ++ "\nAssistant:"

/-- The system prompt of `generate_chat_response` (src/app.py line 96). -/
def chat_system_prompt : String :=
  "You are a helpful AI teaching assistant. You provide clear, educational responses and help students learn various subjects. Be encouraging, patient, and provide examples when helpful. If asked about complex topics, break them down into understandable parts."

/-- Embedding of `generate_chat_response` (src/app.py lines 82-100).  The
second component of the result counts issued generation calls. -/
def generate_chat_response (avail : Bool) (gen : String → String → String)
    (message : String) (context : List (String × String)) : String × Nat :=
  if avail then (gen (full_prompt message context) chat_system_prompt, 1)
  else ("Ollama is not available. Please make sure Ollama is running on your system.", 0)

/-- The context-retrieval step of the `send_message` handler (src/app.py
lines 440-450): the SQL query returns, from the chronologically ordered
stored rows, the five most recent rows newest-first (ORDER BY timestamp
DESC LIMIT 5), and the handler then reverses them into chronological
order before calling `generate_chat_response`. -/
def send_message_context (rows : List (String × String)) : List (String × String) :=
  ((rows.reverse).take 5).reverse

/-- The system prompt of `generate_pdf_content` (src/app.py line 171). -/
def pdf_system_prompt : String :=
  "You are an expert educational content creator. Generate comprehensive study material that is well-structured, informative, and educational. Use clear language and provide practical examples."

/-- The ordered per-section prompts of `generate_pdf_content` (src/app.py
lines 176-182); a Python dict with string keys preserves insertion order,
so it is embedded as an association list. -/
def pdf_section_prompts (topic : String) : List (String × String) :=
  [("introduction",
    "Write a comprehensive introduction to " ++ topic ++
    ". Explain what it is, why it\x27s important, and what students will learn. Make it engaging and informative (200-300 words)."),
   ("key_concepts",
    "List and explain the key concepts, principles, or components of " ++ topic ++
    ". Use bullet points or numbered lists for clarity. Include definitions and brief explanations (300-400 words)."),
   ("examples",
    "Provide 3-4 practical, real-world examples that illustrate " ++ topic ++
    ". Make them relatable and easy to understand. Show how the concepts apply in practice (250-350 words)."),
   ("practice_questions",
    "Create 5-7 practice questions about " ++ topic ++
    " with brief answers. Include a mix of question types: multiple choice, short answer, and application questions (200-300 words)."),
   ("summary",
    "Write a concise summary of " ++ topic ++
    " that reinforces the main points. Include key takeaways and suggestions for further learning (150-200 words).")]

/-- The per-section placeholder of `generate_pdf_content` (src/app.py
line 189). -/
def pdf_placeholder (sectionKey : String) : String :=
  "Content for " ++ sectionKey ++ " could not be generated at this time."

/-- The five templated sections `generate_pdf_content` returns when Ollama
is unavailable (src/app.py lines 163-169). -/
def pdf_unavailable_sections (topic : String) : List (String × String) :=
  [("introduction", "This study material covers " ++ topic ++ "."),
   ("key_concepts", "Key concepts related to " ++ topic ++ "."),
   ("examples", "Practical examples of " ++ topic ++ "."),
   ("practice_questions", "Practice questions about " ++ topic ++ "."),
   ("summary", "Summary of " ++ topic ++ " concepts.")]

/-- Embedding of `generate_pdf_content` (src/app.py lines 160-191).  Each
section issues its own generation call, wrapped in try/except: the oracle
returns either the generated text or an exception, and an exception is
replaced by the placeholder for that section without affecting the others. -/
def generate_pdf_content (avail : Bool) (gen : String → String → Except String String)
    (topic : String) : List (String × String) :=
  if avail then
    (pdf_section_prompts topic).map
      (fun kp =>
        (kp.1,
         match gen kp.2 pdf_system_prompt with
         | Except.ok c => c
         | Except.error _ => pdf_placeholder kp.1))
  else pdf_unavailable_sections topic

/-- Question text of the first item of a quiz result, used to separate
concrete quiz results observationally. -/
def firstQuestionText (l : List JVal) : String :=
  match l with
  | v :: _ =>
      match v.getField "question" with
      | some (JVal.str q) => q
      | _ => ""
  | [] => ""

/-- A generation oracle for the document builder that fails on the
examples-section prompt for the topic Recursion and succeeds on every
other prompt. -/
def pdf_demo_gen : String → String → Except String String :=
  fun p _ =>
    if p = "Provide 3-4 practical, real-world examples that illustrate Recursion. Make them relatable and easy to understand. Show how the concepts apply in practice (250-350 words)."
    then Except.error "timed out"
    else Except.ok ("generated: " ++ p)

theorem firstIdx_of_split (c : Char) (l1 l2 : List Char) (h : c ∉ l1) :
    firstIdxFrom c (l1 ++ c :: l2) = some l1.length := by
  induction l1 with
  | nil => simp [firstIdxFrom]
  | cons a as ih =>
      have ha : ¬(a = c) := fun hac => h (hac ▸ List.mem_cons_self a as)
      have has : c ∉ as := fun hmem => h (List.mem_cons_of_mem a hmem)
      simp [firstIdxFrom, ha, ih has]

theorem valid_unavailQuizItem (topic : String) :
    specValidQuizObj (unavailQuizItem topic) = true := by
  have h1 : ("Sample question about " : String).length = 22 := rfl
  have h2 : ("?" : String).length = 1 := rfl
  simp [specValidQuizObj, unavailQuizItem, JVal.getField, List.lookup, bne_iff_ne,
    String.length_append]
  omega

theorem valid_parseFallbackItem (topic : String) :
    specValidQuizObj (parseFallbackItem topic) = true := by
  have h1 : ("What is an important concept to understand about " : String).length = 49 := rfl
  have h2 : ("?" : String).length = 1 := rfl
  simp [specValidQuizObj, parseFallbackItem, JVal.getField, List.lookup, bne_iff_ne,
    String.length_append]
  omega

/-- Claim C6: when the availability probe fails, `generate_chat_response`
returns the exact fixed unavailability message and issues zero generation
calls, for every message, prior context and generation oracle. -/
theorem chat_unavailable_short_circuit (gen : String → String → String)
    (message : String) (context : List (String × String)) :
    generate_chat_response false gen message context =
      ("Ollama is not available. Please make sure Ollama is running on your system.", 0) :=
  rfl

/-- Claim C7: `generate_response` maps every outcome of the POST
deterministically (it is a total function, so it never raises): a 200
response yields the response field of the JSON body, a non-200 response
yields a text carrying the status code and body, a timeout yields the
fixed timeout message, and any other transport failure yields the
connection-error text. -/
theorem generate_response_outcome_map :
    (∀ (body : List (String × String)) (text r : String),
        body.lookup "response" = some r →
        generate_response (HttpResult.resp 200 body text) = r)
  ∧ (∀ (status : Nat) (body : List (String × String)) (text : String), status ≠ 200 →
        generate_response (HttpResult.resp status body text) =
          "Error: " ++ toString status ++ " - " ++ text)
  ∧ generate_response HttpResult.timeout =
      "Request timed out. The model might be processing a complex query."
  ∧ (∀ msg : String,
        generate_response (HttpResult.connError msg) = "Error connecting to Ollama: " ++ msg) := by
  refine ⟨?_, ?_, rfl, fun msg => rfl⟩
  · intro body text r h
    simp [generate_response, h]
  · intro status body text h
    simp [generate_response, h]

/-- Witness for C7 at concrete outcomes. -/
theorem generate_response_outcome_map_witness :
    generate_response (HttpResult.resp 200 [("response", "hello")] "") = "hello"
  ∧ generate_response (HttpResult.resp 500 [] "boom") = "Error: 500 - boom" :=
  ⟨generate_response_outcome_map.1 [("response", "hello")] "" "hello" rfl,
   generate_response_outcome_map.2.1 500 [] "boom" (by decide)⟩

/-- Claim C10: a 200 response whose JSON body lacks the response key makes
`generate_response` return the fixed apology string. -/
theorem generate_response_missing_field (body : List (String × String)) (text : String)
    (h : body.lookup "response" = none) :
    generate_response (HttpResult.resp 200 body text) =
      "Sorry, I could not generate a response." := by
  simp [generate_response, h]

/-- Witness for C10 with an empty JSON body. -/
theorem generate_response_missing_field_witness :
    ([] : List (String × String)).lookup "response" = none
  ∧ generate_response (HttpResult.resp 200 [] "irrelevant") =
      "Sorry, I could not generate a response." :=
  ⟨rfl, generate_response_missing_field [] "irrelevant" rfl⟩

/-- Claim C4 as stated is false at this input: the fallback item returned
when Ollama is unavailable carries no explanation field, while the claim
says it has the same shape as the parser fallback, explanation included. -/
theorem quiz_unavailable_counterexample :
    generate_quiz_questions false (fun _ _ => "") "Photosynthesis" "intermediate" 5 =
      ([unavailQuizItem "Photosynthesis"], 0)
  ∧ (unavailQuizItem "Photosynthesis").getField "explanation" = none
  ∧ (parseFallbackItem "Photosynthesis").getField "explanation" =
      some (JVal.str "Understanding foundational concepts is crucial for mastering any topic.") :=
  ⟨rfl, rfl, rfl⟩

/-- Claim C4 (amended): when Ollama is unavailable,
`generate_quiz_questions` immediately returns, with zero generation calls,
a single fallback item whose question is templated on the topic, with 4
options and correct label A — but, unlike the parser fallback, with no
explanation field. -/
theorem quiz_unavailable_fallback (gen : String → String → String)
    (topic difficulty : String) (n : Nat) :
    generate_quiz_questions false gen topic difficulty n = ([unavailQuizItem topic], 0)
  ∧ (unavailQuizItem topic).getField "question" =
      some (JVal.str ("Sample question about " ++ topic ++ "?"))
  ∧ (unavailQuizItem topic).getField "options" =
      some (JVal.arr [JVal.str "Option A", JVal.str "Option B", JVal.str "Option C",
                      JVal.str "Option D"])
  ∧ (unavailQuizItem topic).getField "correct" = some (JVal.str "A")
  ∧ (unavailQuizItem topic).getField "explanation" = none :=
  ⟨rfl, rfl, rfl, rfl, rfl⟩

/-- Claim C1 as stated is false at this input: when the model text parses
as an empty JSON array, `generate_quiz_questions` returns the empty list,
not a non-empty sequence of validated items. -/
theorem quiz_empty_batch_counterexample :
    (generate_quiz_questions true (fun _ _ => "[]") "Math" "easy" 3).1 = [] := rfl

/-- Claim C1 (amended): `generate_quiz_questions` returns either one of
the two one-item fallbacks — both of which do satisfy the validation shape
of the spec (non-empty question, exactly 4 options, correct label A) — or,
whenever the bracketed substring of the model text parses as a JSON array,
that array verbatim, with no shape guarantee at all. -/
theorem quiz_result_trichotomy (avail : Bool) (gen : String → String → String)
    (topic difficulty : String) (n : Nat) :
    ((generate_quiz_questions avail gen topic difficulty n).1 = [unavailQuizItem topic]
       ∧ specValidQuizObj (unavailQuizItem topic) = true)
  ∨ ((generate_quiz_questions avail gen topic difficulty n).1 = [parseFallbackItem topic]
       ∧ specValidQuizObj (parseFallbackItem topic) = true)
  ∨ (∃ arr,
       extracted_questions
         (gen (quiz_prompt topic difficulty n) (quiz_system_prompt topic difficulty n)) =
           some arr
       ∧ (generate_quiz_questions avail gen topic difficulty n).1 = arr) := by
  cases avail with
  | false => exact Or.inl ⟨rfl, valid_unavailQuizItem topic⟩
  | true =>
      cases h : extracted_questions
          (gen (quiz_prompt topic difficulty n) (quiz_system_prompt topic difficulty n)) with
      | some arr =>
          refine Or.inr (Or.inr ⟨arr, rfl, ?_⟩)
          simp [generate_quiz_questions, quiz_from_response, h]
      | none =>
          refine Or.inr (Or.inl ⟨?_, valid_parseFallbackItem topic⟩)
          simp [generate_quiz_questions, quiz_from_response, h]

/-- Claim C2 as stated is false at this input: an object that fails every
validation condition of the spec (empty question, zero options, correct
label Z) is returned as-is by the quiz pipeline instead of being discarded
in favour of the fallback item. -/
theorem quiz_no_validation_counterexample :
    (generate_quiz_questions true
        (fun _ _ => "[\x7b\"question\": \"\", \"options\": [], \"correct\": \"Z\"\x7d]")
        "Math" "easy" 1).1 =
      [JVal.obj [("question", JVal.str ""), ("options", JVal.arr []),
                 ("correct", JVal.str "Z")]]
  ∧ specValidQuizObj
      (JVal.obj [("question", JVal.str ""), ("options", JVal.arr []),
                 ("correct", JVal.str "Z")]) = false
  ∧ (generate_quiz_questions true
        (fun _ _ => "[\x7b\"question\": \"\", \"options\": [], \"correct\": \"Z\"\x7d]")
        "Math" "easy" 1).1 ≠ [parseFallbackItem "Math"] := by
  refine ⟨rfl, rfl, ?_⟩
  intro h
  have h2 := congrArg firstQuestionText h
  exact absurd h2 (by decide)

/-- Claim C2 (amended): after a candidate JSON array is successfully
extracted and parsed, `generate_quiz_questions` returns it unchanged, with
no per-object validation at all; the fallback item is used only when no
bracketed substring exists or JSON parsing fails. -/
theorem quiz_parsed_array_returned_unvalidated (gen : String → String → String)
    (topic difficulty : String) (n : Nat) (arr : List JVal)
    (h : extracted_questions
        (gen (quiz_prompt topic difficulty n) (quiz_system_prompt topic difficulty n)) =
      some arr) :
    (generate_quiz_questions true gen topic difficulty n).1 = arr := by
  simp [generate_quiz_questions, quiz_from_response, h]

/-- Witness for the amended C2: a mis-shaped parsed object flows through
unchanged. -/
theorem quiz_parsed_array_returned_unvalidated_witness :
    extracted_questions
      ((fun _ _ => "[\x7b\"question\": \"\", \"options\": [], \"correct\": \"Z\"\x7d]")
        (quiz_prompt "Biology" "hard" 2) (quiz_system_prompt "Biology" "hard" 2)) =
      some [JVal.obj [("question", JVal.str ""), ("options", JVal.arr []),
                      ("correct", JVal.str "Z")]]
  ∧ (generate_quiz_questions true
        (fun _ _ => "[\x7b\"question\": \"\", \"options\": [], \"correct\": \"Z\"\x7d]")
        "Biology" "hard" 2).1 =
      [JVal.obj [("question", JVal.str ""), ("options", JVal.arr []),
                 ("correct", JVal.str "Z")]] :=
  ⟨rfl,
   quiz_parsed_array_returned_unvalidated
     (fun _ _ => "[\x7b\"question\": \"\", \"options\": [], \"correct\": \"Z\"\x7d]")
     "Biology" "hard" 2
     [JVal.obj [("question", JVal.str ""), ("options", JVal.arr []),
                ("correct", JVal.str "Z")]] rfl⟩

/-- Claim C3 as stated is false at this input: `generate_chat_response`
renders the supplied turns in the order given, so turns supplied in
reverse-chronological order appear newest-first in the prompt, not
oldest-first (the echo oracle returns the prompt it is given). -/
theorem chat_context_order_counterexample :
    generate_chat_response true (fun p _ => p) "q" [("u2", "m2"), ("u1", "m1")] =
      ("User: u2\nAssistant: m2\nUser: u1\nAssistant: m1\n\nUser: q\nAssistant:", 1)
  ∧ "User: u2\nAssistant: m2\nUser: u1\nAssistant: m1\n\nUser: q\nAssistant:" ≠
      full_prompt "q" [("u1", "m1"), ("u2", "m2")] :=
  ⟨rfl, by decide⟩

/-- Claim C3 (amended): `generate_chat_response` itself performs no
reordering; chronological order is restored by the caller `send_message`,
whose retrieval step (newest-first LIMIT 5, then reverse) turns the
chronologically stored rows into the chronologically-last five turns in
oldest-first order, so with that caller the turns do appear oldest-first
in the final prompt. -/
theorem chat_order_restored_by_caller (rows : List (String × String)) (message : String) :
    send_message_context rows = rows.drop (rows.length - 5)
  ∧ generate_chat_response true (fun p _ => p) message (send_message_context rows) =
      (full_prompt message (rows.drop (rows.length - 5)), 1) := by
  have h : send_message_context rows = rows.drop (rows.length - 5) := by
    unfold send_message_context
    rw [List.take_reverse, List.reverse_reverse]
  exact ⟨h, by simp [generate_chat_response, h]⟩

/-- Claim C9: with five or more prior turns, the chat prompt contains
exactly the last five supplied turns, in supplied (chronological) order,
each rendered as a User/Assistant block, joined with newlines and followed
by a blank line before the new user message; turns before the last five
do not influence the prompt. -/
theorem chat_context_window_last_five (message : String) (ts : List (String × String))
    (h : 5 ≤ ts.length) :
    full_prompt message ts =
      String.intercalate "\n" ((ts.drop (ts.length - 5)).map renderTurn) ++ "\n\n" ++
        "User: " ++ message ++ "\nAssistant:"
  ∧ full_prompt message ts = full_prompt message (ts.drop (ts.length - 5)) := by
  have hne : ts.isEmpty = false := by
    cases ts with
    | nil => simp at h
    | cons a as => rfl
  have hd : (ts.drop (ts.length - 5)).length = 5 := by
    rw [List.length_drop]
    omega
  have hdne : (ts.drop (ts.length - 5)).isEmpty = false := by
    cases hcase : ts.drop (ts.length - 5) with
    | nil => rw [hcase] at hd; simp at hd
    | cons a as => rfl
  constructor
  · simp [full_prompt, context_prompt, hne]
  · simp [full_prompt, context_prompt, hne, hdne, hd]

/-- Witness for C9 with seven concrete turns. -/
theorem chat_context_window_last_five_witness :
    5 ≤ ([("u1", "m1"), ("u2", "m2"), ("u3", "m3"), ("u4", "m4"), ("u5", "m5"),
          ("u6", "m6"), ("u7", "m7")] : List (String × String)).length
  ∧ (full_prompt "hi"
        [("u1", "m1"), ("u2", "m2"), ("u3", "m3"), ("u4", "m4"), ("u5", "m5"),
         ("u6", "m6"), ("u7", "m7")] =
      String.intercalate "\n"
          (([("u1", "m1"), ("u2", "m2"), ("u3", "m3"), ("u4", "m4"), ("u5", "m5"),
             ("u6", "m6"), ("u7", "m7")].drop
            ([("u1", "m1"), ("u2", "m2"), ("u3", "m3"), ("u4", "m4"), ("u5", "m5"),
              ("u6", "m6"), ("u7", "m7")].length - 5)).map renderTurn) ++ "\n\n" ++
        "User: " ++ "hi" ++ "\nAssistant:"
     ∧ full_prompt "hi"
        [("u1", "m1"), ("u2", "m2"), ("u3", "m3"), ("u4", "m4"), ("u5", "m5"),
         ("u6", "m6"), ("u7", "m7")] =
       full_prompt "hi"
        ([("u1", "m1"), ("u2", "m2"), ("u3", "m3"), ("u4", "m4"), ("u5", "m5"),
          ("u6", "m6"), ("u7", "m7")].drop
          ([("u1", "m1"), ("u2", "m2"), ("u3", "m3"), ("u4", "m4"), ("u5", "m5"),
            ("u6", "m6"), ("u7", "m7")].length - 5))) :=
  ⟨by decide,
   chat_context_window_last_five "hi"
     [("u1", "m1"), ("u2", "m2"), ("u3", "m3"), ("u4", "m4"), ("u5", "m5"),
      ("u6", "m6"), ("u7", "m7")] (by decide)⟩

/-- Claim C5: `generate_pdf_content` returns exactly the five fixed
section keys in their fixed order, whatever the availability and the
outcomes of the generation calls; and, per section independently, an
exception from the call for a section is captured and replaced by the
fixed placeholder for that section only, while a successful call yields
its text — the value at each key depends only on the call made for that
key. -/
theorem pdf_sections_total (avail : Bool) (gen : String → String → Except String String)
    (topic : String) :
    (generate_pdf_content avail gen topic).map Prod.fst =
      ["introduction", "key_concepts", "examples", "practice_questions", "summary"]
  ∧ (∀ k p, (k, p) ∈ pdf_section_prompts topic →
      (∀ e, gen p pdf_system_prompt = Except.error e →
          (generate_pdf_content true gen topic).lookup k = some (pdf_placeholder k))
      ∧ (∀ c, gen p pdf_system_prompt = Except.ok c →
          (generate_pdf_content true gen topic).lookup k = some c)) := by
  constructor
  · cases avail with
    | true => simp [generate_pdf_content, pdf_section_prompts]
    | false => rfl
  · intro k p hmem
    simp only [pdf_section_prompts, List.mem_cons, List.not_mem_nil, or_false] at hmem
    rcases hmem with h | h | h | h | h
    all_goals
      injection h with hk hp
      subst hk
      subst hp
      constructor
    all_goals intro x hx
    all_goals simp [generate_pdf_content, pdf_section_prompts, List.lookup, hx]

set_option maxRecDepth 4000 in
/-- Witness for C5: an oracle that times out on the examples section of
the topic Recursion and succeeds elsewhere yields the placeholder at
examples. -/
theorem pdf_sections_total_witness :
    ("examples",
      "Provide 3-4 practical, real-world examples that illustrate Recursion. Make them relatable and easy to understand. Show how the concepts apply in practice (250-350 words).")
        ∈ pdf_section_prompts "Recursion"
  ∧ pdf_demo_gen
      "Provide 3-4 practical, real-world examples that illustrate Recursion. Make them relatable and easy to understand. Show how the concepts apply in practice (250-350 words)."
      pdf_system_prompt = Except.error "timed out"
  ∧ (generate_pdf_content true pdf_demo_gen "Recursion").lookup "examples" =
      some (pdf_placeholder "examples") :=
  ⟨by decide, rfl,
   ((pdf_sections_total true pdf_demo_gen "Recursion").2 "examples"
       "Provide 3-4 practical, real-world examples that illustrate Recursion. Make them relatable and easy to understand. Show how the concepts apply in practice (250-350 words)."
       (by decide)).1 "timed out" rfl⟩

/-- Claim C8: the extraction step takes the substring of the model text
from the first opening bracket to the last closing bracket, greedily and
across arbitrary surrounding prose; and whenever that substring parses as
a JSON array, `quiz_from_response` returns exactly that array, field
values preserved. -/
theorem quiz_extraction_roundtrip (pre mid post : String)
    (hpre : '[' ∉ pre.data) (hpost : ']' ∉ post.data)
    (hhead : mid.data.head? = some '[') (hlast : mid.data.getLast? = some ']') :
    bracketSlice (pre ++ mid ++ post).data = some mid.data
  ∧ ∀ (topic : String) (arr : List JVal), loadsArr mid.data = some arr →
      quiz_from_response topic (pre ++ mid ++ post) = arr := by
  have hdata : (pre ++ mid ++ post).data = pre.data ++ mid.data ++ post.data := rfl
  obtain ⟨tl, htl⟩ : ∃ tl, mid.data = '[' :: tl := by
    cases hm : mid.data with
    | nil => rw [hm] at hhead; simp at hhead
    | cons a tl =>
        rw [hm] at hhead
        simp at hhead
        exact ⟨tl, by rw [hhead]⟩
  obtain ⟨r, hr⟩ : ∃ r, mid.data.reverse = ']' :: r := by
    cases hm : mid.data.reverse with
    | nil =>
        have hnil : mid.data = [] := by
          have h2 := congrArg List.reverse hm
          simpa using h2
        rw [hnil] at hhead
        simp at hhead
    | cons c r =>
        have hc : mid.data.reverse.head? = some c := by rw [hm]; rfl
        rw [List.head?_reverse, hlast] at hc
        injection hc with hc
        exact ⟨r, by rw [hc]⟩
  have hmd2 : 2 ≤ mid.data.length := by
    rcases tl with _ | ⟨b, tl2⟩
    · rw [htl] at hlast
      exact absurd hlast (by decide)
    · rw [htl]
      simp
  have hfirst : firstIdxFrom '[' (pre.data ++ mid.data ++ post.data) = some pre.data.length := by
    rw [htl, List.append_assoc, List.cons_append]
    exact firstIdx_of_split '[' pre.data (tl ++ post.data) hpre
  have hlastIdx :
      firstIdxFrom ']' ((pre.data ++ mid.data ++ post.data).reverse) = some post.data.length := by
    rw [List.reverse_append, List.reverse_append, hr, List.cons_append]
    have hq : ']' ∉ post.data.reverse := by simpa using hpost
    have h3 := firstIdx_of_split ']' post.data.reverse (r ++ pre.data.reverse) hq
    simpa [List.length_reverse] using h3
  have hlen : (pre.data ++ mid.data ++ post.data).length =
      pre.data.length + mid.data.length + post.data.length := by
    simp [List.length_append]
    omega
  have hslice : bracketSlice (pre.data ++ mid.data ++ post.data) = some mid.data := by
    unfold bracketSlice
    rw [hfirst, hlastIdx]
    show (if pre.data.length <
            (pre.data ++ mid.data ++ post.data).length - 1 - post.data.length then
          some (((pre.data ++ mid.data ++ post.data).drop pre.data.length).take
            ((pre.data ++ mid.data ++ post.data).length - 1 - post.data.length -
              pre.data.length + 1))
        else none) = some mid.data
    have hcond : pre.data.length <
        (pre.data ++ mid.data ++ post.data).length - 1 - post.data.length := by
      rw [hlen]; omega
    rw [if_pos hcond]
    have htake : (pre.data ++ mid.data ++ post.data).length - 1 - post.data.length -
        pre.data.length + 1 = mid.data.length := by
      rw [hlen]; omega
    rw [htake, List.append_assoc, List.drop_left, List.take_left]
  refine ⟨hdata ▸ hslice, ?_⟩
  intro topic arr harr
  have hslice2 : bracketSlice (pre ++ mid ++ post).data = some mid.data := hdata ▸ hslice
  have hextr : extracted_questions (pre ++ mid ++ post) = some arr := by
    unfold extracted_questions
    rw [hslice2]
    exact harr
  unfold quiz_from_response
  rw [hextr]

set_option maxRecDepth 4000 in
/-- Witness for C8: the scenario from the spec — a one-object JSON array
wrapped in prose round-trips into exactly one item with correct label B. -/
theorem quiz_extraction_roundtrip_witness :
    ('[' ∉ ("Sure! Here you go: " : String).data
      ∧ ']' ∉ (" Hope that helps." : String).data
      ∧ ("[\x7b\"question\":\"Q1?\",\"options\":[\"A\",\"B\",\"C\",\"D\"],\"correct\":\"B\"\x7d]" : String).data.head? = some '['
      ∧ ("[\x7b\"question\":\"Q1?\",\"options\":[\"A\",\"B\",\"C\",\"D\"],\"correct\":\"B\"\x7d]" : String).data.getLast? = some ']'
      ∧ loadsArr ("[\x7b\"question\":\"Q1?\",\"options\":[\"A\",\"B\",\"C\",\"D\"],\"correct\":\"B\"\x7d]" : String).data =
          some [JVal.obj [("question", JVal.str "Q1?"),
                          ("options", JVal.arr [JVal.str "A", JVal.str "B", JVal.str "C",
                                                JVal.str "D"]),
                          ("correct", JVal.str "B")]])
  ∧ quiz_from_response "Physics"
      ("Sure! Here you go: " ++
       "[\x7b\"question\":\"Q1?\",\"options\":[\"A\",\"B\",\"C\",\"D\"],\"correct\":\"B\"\x7d]" ++
       " Hope that helps.") =
      [JVal.obj [("question", JVal.str "Q1?"),
                 ("options", JVal.arr [JVal.str "A", JVal.str "B", JVal.str "C", JVal.str "D"]),
                 ("correct", JVal.str "B")]]
  ∧ (JVal.obj [("question", JVal.str "Q1?"),
               ("options", JVal.arr [JVal.str "A", JVal.str "B", JVal.str "C", JVal.str "D"]),
               ("correct", JVal.str "B")]).getField "correct" = some (JVal.str "B")
  ∧ ([JVal.obj [("question", JVal.str "Q1?"),
                ("options", JVal.arr [JVal.str "A", JVal.str "B", JVal.str "C", JVal.str "D"]),
                ("correct", JVal.str "B")]] : List JVal).length = 1 :=
  ⟨⟨by decide, by decide, rfl, rfl, rfl⟩,
   (quiz_extraction_roundtrip "Sure! Here you go: "
      "[\x7b\"question\":\"Q1?\",\"options\":[\"A\",\"B\",\"C\",\"D\"],\"correct\":\"B\"\x7d]"
      " Hope that helps." (by decide) (by decide) rfl rfl).2 "Physics"
      [JVal.obj [("question", JVal.str "Q1?"),
                 ("options", JVal.arr [JVal.str "A", JVal.str "B", JVal.str "C", JVal.str "D"]),
                 ("correct", JVal.str "B")]] rfl,
   rfl, rfl⟩
